import Mathlib

/-!
Verification of `get_lol_id.py`, a one-shot command-line script that
queries the spectator endpoint of a game-data API for the active game of
a player and prints the riotId display names of its participants.

The script is embedded shallowly:

* Python values that can occur in the deserialized API response are the
  inductive type `Json` (strings, integers, lists, dicts).
* Python subscripting `v[key]` and iteration `for x in v` are the
  functions `pySubscript` and `pyIter`, returning `Except String` where
  the error string models the exception message (KeyError / TypeError).
* The API client is a parameter `api : ApiFn`: applied to the api key
  (held by the constructed `LolWatcher`), the region and the puuid, it
  yields either an error (an exception raised by the library) or the
  response value.
* An execution produces a trace of externally visible events
  (`Event`): construction of the client, the outbound spectator call,
  and lines printed to stdout / stderr, plus the process exit code.
* The ambient `World` (file system contents, environment variables) is
  threaded through the run explicitly so that frame properties are
  statable.
-/

/-- Python values occurring in the deserialized spectator response:
strings, integers, lists and dicts (modelled as association lists). -/
inductive Json where
  | str : String → Json
  | num : Int → Json
  | arr : List Json → Json
  | obj : List (String × Json) → Json

/-- The single-quote character, used by the Python repr of strings. -/
def sqChar : Char := Char.ofNat 39

/-- The double-quote character. -/
def dqChar : Char := Char.ofNat 34

/-- One character of a Python string repr, escaped as Python escapes it
when the surrounding quote is `q`. -/
def pyEscape (q : Char) (c : Char) : String :=
  if c.toNat = 92 then "\\\\"
  else if c = q then String.singleton (Char.ofNat 92) ++ String.singleton q
  else if c.toNat = 10 then "\\n"
  else if c.toNat = 13 then "\\r"
  else if c.toNat = 9 then "\\t"
  else String.singleton c

/-- Whether the string holds a character with the given code point. -/
def strHasCode (s : String) (n : Nat) : Bool :=
  s.toList.any fun c => c.toNat = n

/-- Python repr of a string: single-quoted, except that a string holding
a single quote but no double quote is double-quoted; the quote character
and backslashes are escaped. -/
def pyReprStr (s : String) : String :=
  let q := if strHasCode s 39 && !(strHasCode s 34) then dqChar else sqChar
  String.singleton q ++ String.join (s.toList.map (pyEscape q)) ++ String.singleton q

mutual

/-- Python repr of a value, as `print` renders the elements of a list. -/
def pyRepr : Json → String
  | Json.str s => pyReprStr s
  | Json.num n => toString n
  | Json.arr xs => "[" ++ String.intercalate ", " (pyReprList xs) ++ "]"
  | Json.obj kvs => "\x7b" ++ String.intercalate ", " (pyReprObj kvs) ++ "\x7d"

/-- Python reprs of the elements of a list value. -/
def pyReprList : List Json → List String
  | [] => []
  | x :: xs => pyRepr x :: pyReprList xs

/-- Python reprs of the entries of a dict value. -/
def pyReprObj : List (String × Json) → List String
  | [] => []
  | (k, v) :: kvs => (pyReprStr k ++ ": " ++ pyRepr v) :: pyReprObj kvs

end

/-- Python subscripting `v[key]` with a string key: a dict yields the
value stored under the key or raises KeyError; strings, lists and
integers raise TypeError. -/
def pySubscript : Json → String → Except String Json
  | Json.obj kvs, k =>
      match kvs.lookup k with
      | some v => Except.ok v
      | none => Except.error ("KeyError: " ++ pyReprStr k)
  | Json.str _, _ => Except.error "TypeError: string indices must be integers"
  | Json.arr _, _ => Except.error "TypeError: list indices must be integers or slices, not str"
  | Json.num _, _ => Except.error "TypeError: int object is not subscriptable"

/-- Python iteration `for x in v`: a list yields its elements, a dict
its keys, a string its characters; an integer raises TypeError. -/
def pyIter : Json → Except String (List Json)
  | Json.arr xs => Except.ok xs
  | Json.obj kvs => Except.ok (kvs.map fun kv => Json.str kv.1)
  | Json.str s => Except.ok (s.toList.map fun c => Json.str (String.singleton c))
  | Json.num _ => Except.error "TypeError: int object is not iterable"

/-- The list comprehension of the script: subscript each participant
with the key riotId, left to right, stopping at the first exception. -/
def riotIdsOf : List Json → Except String (List Json)
  | [] => Except.ok []
  | p :: ps =>
      match pySubscript p "riotId" with
      | Except.error e => Except.error e
      | Except.ok v =>
          match riotIdsOf ps with
          | Except.error e => Except.error e
          | Except.ok rest => Except.ok (v :: rest)

/-- The API client: api key, region, puuid to response or raised error. -/
def ApiFn : Type := String → String → String → Except String Json

/-- Externally visible events of one run of the script. -/
inductive Event where
  | constructClient (apiKey : String)
  | apiCall (region puuid : String)
  | printOut (line : String)
  | printErr (line : String)
deriving DecidableEq, Repr

/-- Whether an event is a print (to stdout or stderr). -/
def Event.isPrint : Event → Bool
  | Event.printOut _ => true
  | Event.printErr _ => true
  | _ => false

/-- Outcome of one run: the ordered event trace and the exit code. -/
structure ExecResult where
  trace : List Event
  exitCode : Nat
deriving DecidableEq, Repr

/-- Lines the run printed to standard output, in order. -/
def ExecResult.stdout (r : ExecResult) : List String :=
  r.trace.filterMap fun e =>
    match e with
    | Event.printOut s => some s
    | _ => none

/-- Lines the run printed to standard error, in order. -/
def ExecResult.stderr (r : ExecResult) : List String :=
  r.trace.filterMap fun e =>
    match e with
    | Event.printErr s => some s
    | _ => none

/-- The outbound spectator calls the run issued, as (region, puuid). -/
def ExecResult.apiCalls (r : ExecResult) : List (String × String) :=
  r.trace.filterMap fun e =>
    match e with
    | Event.apiCall region puuid => some (region, puuid)
    | _ => none

/-- The API clients the run constructed, by api key. -/
def ExecResult.clientsBuilt (r : ExecResult) : List String :=
  r.trace.filterMap fun e =>
    match e with
    | Event.constructClient k => some k
    | _ => none

/-- The ambient world outside the process: file system contents and
environment variables. The script owns no further state. -/
structure World where
  files : List (String × String)
  env : List (String × String)
deriving DecidableEq, Repr

/-- The usage line printed on an argument-count mismatch. -/
def usageMsg : String := "Usage: python3 get_lol_id.py <api_key> <puuid>"

/-- The body of the script once the argument count has been checked:
construct `LolWatcher(api_key)`, call
`lol_watcher.spectator.by_summoner(, puuid)` with the region being the
jp1 literal, build `riot_ids` by the comprehension over
`game_data[..participants..]`, and print it. Any raised exception ends
the process with the exception message on stderr and exit status 1. -/
def runWithArgs (api_key puuid : String) (api : ApiFn) (w : World) :
    ExecResult × World :=
  match api api_key "jp1" puuid with
  | Except.error e =>
      (⟨[Event.constructClient api_key, Event.apiCall "jp1" puuid,
         Event.printErr e], 1⟩, w)
  | Except.ok game_data =>
      match pySubscript game_data "participants" with
      | Except.error e =>
          (⟨[Event.constructClient api_key, Event.apiCall "jp1" puuid,
             Event.printErr e], 1⟩, w)
      | Except.ok ps =>
          match pyIter ps with
          | Except.error e =>
              (⟨[Event.constructClient api_key, Event.apiCall "jp1" puuid,
                 Event.printErr e], 1⟩, w)
          | Except.ok items =>
              match riotIdsOf items with
              | Except.error e =>
                  (⟨[Event.constructClient api_key, Event.apiCall "jp1" puuid,
                     Event.printErr e], 1⟩, w)
              | Except.ok riot_ids =>
                  (⟨[Event.constructClient api_key, Event.apiCall "jp1" puuid,
                     Event.printOut (pyRepr (Json.arr riot_ids))], 0⟩, w)

/-- The whole script `get_lol_id.py` on a full `sys.argv` (the script
name followed by the command-line arguments): if `len(sys.argv) != 3`
it prints the usage line to stdout and exits with status 1 via
`sys.exit(1)`; otherwise it reads `api_key = sys.argv[1]` and
`puuid = sys.argv[2]` and runs the body. -/
def getLolId (argv : List String) (api : ApiFn) (w : World) :
    ExecResult × World :=
  if argv.length ≠ 3 then
    (⟨[Event.printOut usageMsg], 1⟩, w)
  else
    runWithArgs (argv.getD 1 "") (argv.getD 2 "") api w

/-- With `sys.argv` holding the script name and two arguments, the
length check passes and the script runs its body on `sys.argv[1]` and
`sys.argv[2]`. -/
lemma getLolId_two_args (prog a p : String) (api : ApiFn) (w : World) :
    getLolId [prog, a, p] api w = runWithArgs a p api w := by
  have h : ¬ (([prog, a, p] : List String).length ≠ 3) := by simp
  unfold getLolId
  rw [if_neg h]
  rfl

/-- Whatever the client returns, the body constructs one client, issues
one spectator call on the jp1 literal and the puuid, and afterwards only
prints. -/
lemma runWithArgs_trace (a p : String) (api : ApiFn) (w : World) :
    ∃ rest, ((runWithArgs a p api w).1).trace =
        Event.constructClient a :: Event.apiCall "jp1" p :: rest ∧
      rest.all Event.isPrint = true := by
  unfold runWithArgs
  repeat' split
  all_goals exact ⟨_, rfl, rfl⟩

/-- The body always issues exactly the one spectator call
`("jp1", puuid)`: the region is the fixed literal and the api key never
enters the call. -/
lemma runWithArgs_apiCalls (a p : String) (api : ApiFn) (w : World) :
    ((runWithArgs a p api w).1).apiCalls = [("jp1", p)] := by
  unfold runWithArgs
  repeat' split
  all_goals rfl

/-- The body leaves the ambient world untouched. -/
lemma runWithArgs_world (a p : String) (api : ApiFn) (w : World) :
    (runWithArgs a p api w).2 = w := by
  unfold runWithArgs
  repeat' split
  all_goals rfl

/-- The observable outcome of the body does not depend on the ambient
world. -/
lemma runWithArgs_fst (a p : String) (api : ApiFn) (w w2 : World) :
    (runWithArgs a p api w).1 = (runWithArgs a p api w2).1 := by
  unfold runWithArgs
  repeat' split
  all_goals rfl

/-- The printed output of the body depends only on what the one
spectator call returns, not on the arguments or the world. -/
lemma runWithArgs_stdout_eq (a p a2 p2 : String) (api api2 : ApiFn)
    (w w2 : World) (h : api a "jp1" p = api2 a2 "jp1" p2) :
    ((runWithArgs a p api w).1).stdout =
      ((runWithArgs a2 p2 api2 w2).1).stdout := by
  rcases hv : api a "jp1" p with e | gd
  · have hv2 : api2 a2 "jp1" p2 = Except.error e := h.symm.trans hv
    simp only [runWithArgs, hv, hv2]
    rfl
  · have hv2 : api2 a2 "jp1" p2 = Except.ok gd := h.symm.trans hv
    simp only [runWithArgs, hv, hv2]
    rcases hs : pySubscript gd "participants" with e | ps
    · simp only [hs]
      rfl
    · simp only [hs]
      rcases hi : pyIter ps with e | items
      · simp only [hi]
        rfl
      · simp only [hi]
        rcases hr : riotIdsOf items with e | ids
        · simp only [hr]
          rfl
        · simp only [hr]
          rfl

/-- The Python repr of an empty list. -/
lemma pyRepr_arr_nil : pyRepr (Json.arr []) = "[]" := by
  simp only [pyRepr, pyReprList]
  rfl

/-- C1: with exactly two arguments and a client whose response carries a
participant list of records each holding a riotId field, the script
prints the Python list of those riotId values in participant order and
exits with status 0. -/
theorem claim1_prints_riot_ids (prog a p : String) (api : ApiFn) (w : World)
    (resp : Json) (parts ids : List Json)
    (hresp : api a "jp1" p = Except.ok resp)
    (hparts : pySubscript resp "participants" = Except.ok (Json.arr parts))
    (hids : riotIdsOf parts = Except.ok ids) :
    ((getLolId [prog, a, p] api w).1).stdout = [pyRepr (Json.arr ids)] ∧
      ((getLolId [prog, a, p] api w).1).exitCode = 0 := by
  rw [getLolId_two_args]
  simp only [runWithArgs, hresp, hparts, pyIter, hids]
  exact ⟨rfl, trivial⟩

/-- C1 witness: the spec example, printed exactly. -/
theorem claim1_witness :
    ((getLolId ["get_lol_id.py", "RGAPI-demo", "puuid-one"]
        (fun _ _ _ => Except.ok (Json.obj [("participants",
          Json.arr [Json.obj [("riotId", Json.str "A#1")],
                    Json.obj [("riotId", Json.str "B#2")]])]))
        (World.mk [] [])).1).stdout = ["[\x27A#1\x27, \x27B#2\x27]"] ∧
      ((getLolId ["get_lol_id.py", "RGAPI-demo", "puuid-one"]
        (fun _ _ _ => Except.ok (Json.obj [("participants",
          Json.arr [Json.obj [("riotId", Json.str "A#1")],
                    Json.obj [("riotId", Json.str "B#2")]])]))
        (World.mk [] [])).1).exitCode = 0 := by
  have h := claim1_prints_riot_ids "get_lol_id.py" "RGAPI-demo" "puuid-one"
    (fun _ _ _ => Except.ok (Json.obj [("participants",
      Json.arr [Json.obj [("riotId", Json.str "A#1")],
                Json.obj [("riotId", Json.str "B#2")]])]))
    (World.mk [] [])
    (Json.obj [("participants",
      Json.arr [Json.obj [("riotId", Json.str "A#1")],
                Json.obj [("riotId", Json.str "B#2")]])])
    [Json.obj [("riotId", Json.str "A#1")], Json.obj [("riotId", Json.str "B#2")]]
    [Json.str "A#1", Json.str "B#2"] rfl rfl rfl
  refine ⟨h.1.trans ?_, h.2⟩
  simp only [pyRepr, pyReprList]
  rfl

/-- C2: with an argument count other than two, the script prints the
usage line, exits with status 1, issues no spectator call and constructs
no client. -/
theorem claim2_usage_on_bad_arg_count (prog : String) (args : List String)
    (api : ApiFn) (w : World) (h : args.length ≠ 2) :
    ((getLolId (prog :: args) api w).1).stdout = [usageMsg] ∧
      ((getLolId (prog :: args) api w).1).exitCode = 1 ∧
      ((getLolId (prog :: args) api w).1).apiCalls = [] ∧
      ((getLolId (prog :: args) api w).1).clientsBuilt = [] := by
  have hlen : ((prog :: args).length ≠ 3) := by
    simp only [List.length_cons]
    omega
  unfold getLolId
  rw [if_pos hlen]
  exact ⟨rfl, rfl, rfl, rfl⟩

/-- C2 witness: one argument. -/
theorem claim2_witness :
    ((getLolId ["get_lol_id.py", "only-key"]
        (fun _ _ _ => Except.error "unused") (World.mk [] [])).1).stdout
        = [usageMsg] ∧
      ((getLolId ["get_lol_id.py", "only-key"]
        (fun _ _ _ => Except.error "unused") (World.mk [] [])).1).exitCode = 1 ∧
      ((getLolId ["get_lol_id.py", "only-key"]
        (fun _ _ _ => Except.error "unused") (World.mk [] [])).1).apiCalls = [] ∧
      ((getLolId ["get_lol_id.py", "only-key"]
        (fun _ _ _ => Except.error "unused") (World.mk [] [])).1).clientsBuilt = [] :=
  claim2_usage_on_bad_arg_count "get_lol_id.py" ["only-key"]
    (fun _ _ _ => Except.error "unused") (World.mk [] []) (by decide)

/-- C3: with two arguments and a client that raises, the raised error is
not caught: it surfaces as the process diagnostic on stderr, nothing is
printed to stdout, and the exit status is non-zero. -/
theorem claim3_api_error_propagates (prog a p e : String) (api : ApiFn)
    (w : World) (herr : api a "jp1" p = Except.error e) :
    ((getLolId [prog, a, p] api w).1).exitCode ≠ 0 ∧
      ((getLolId [prog, a, p] api w).1).stdout = [] ∧
      ((getLolId [prog, a, p] api w).1).stderr = [e] := by
  rw [getLolId_two_args]
  simp only [runWithArgs, herr]
  exact ⟨Nat.one_ne_zero, rfl, rfl⟩

/-- C3 witness: an unauthorized credential. -/
theorem claim3_witness :
    ((getLolId ["get_lol_id.py", "bad-key", "puuid-one"]
        (fun _ _ _ => Except.error "HTTPError 401 Unauthorized")
        (World.mk [] [])).1).exitCode ≠ 0 ∧
      ((getLolId ["get_lol_id.py", "bad-key", "puuid-one"]
        (fun _ _ _ => Except.error "HTTPError 401 Unauthorized")
        (World.mk [] [])).1).stdout = [] ∧
      ((getLolId ["get_lol_id.py", "bad-key", "puuid-one"]
        (fun _ _ _ => Except.error "HTTPError 401 Unauthorized")
        (World.mk [] [])).1).stderr = ["HTTPError 401 Unauthorized"] :=
  claim3_api_error_propagates "get_lol_id.py" "bad-key" "puuid-one"
    "HTTPError 401 Unauthorized"
    (fun _ _ _ => Except.error "HTTPError 401 Unauthorized")
    (World.mk [] []) rfl

/-- C4: with two arguments and a response whose participant list is
empty, the script prints the empty Python list and exits with status 0. -/
theorem claim4_empty_participants (prog a p : String) (api : ApiFn)
    (w : World) (resp : Json)
    (hresp : api a "jp1" p = Except.ok resp)
    (hparts : pySubscript resp "participants" = Except.ok (Json.arr [])) :
    ((getLolId [prog, a, p] api w).1).stdout = ["[]"] ∧
      ((getLolId [prog, a, p] api w).1).exitCode = 0 := by
  rw [getLolId_two_args]
  constructor
  · have h1 : ((runWithArgs a p api w).1).stdout = [pyRepr (Json.arr [])] := by
      simp only [runWithArgs, hresp, hparts, pyIter, riotIdsOf]
      rfl
    rw [h1, pyRepr_arr_nil]
  · simp only [runWithArgs, hresp, hparts, pyIter, riotIdsOf]

/-- C4 witness: a concrete empty-participants response. -/
theorem claim4_witness :
    ((getLolId ["get_lol_id.py", "RGAPI-demo", "puuid-one"]
        (fun _ _ _ => Except.ok (Json.obj [("participants", Json.arr [])]))
        (World.mk [] [])).1).stdout = ["[]"] ∧
      ((getLolId ["get_lol_id.py", "RGAPI-demo", "puuid-one"]
        (fun _ _ _ => Except.ok (Json.obj [("participants", Json.arr [])]))
        (World.mk [] [])).1).exitCode = 0 :=
  claim4_empty_participants "get_lol_id.py" "RGAPI-demo" "puuid-one"
    (fun _ _ _ => Except.ok (Json.obj [("participants", Json.arr [])]))
    (World.mk [] []) (Json.obj [("participants", Json.arr [])]) rfl rfl

/-- C5: with two arguments and a response of unexpected shape (no
participants entry, or a participant from which the riotId subscript
raises), the raised exception is unhandled: nothing reaches stdout, a
diagnostic reaches stderr, and the exit status is non-zero. -/
theorem claim5_shape_mismatch_crashes (prog a p : String) (api : ApiFn)
    (w : World) (resp : Json)
    (hresp : api a "jp1" p = Except.ok resp)
    (hbad : (∃ e, pySubscript resp "participants" = Except.error e) ∨
      (∃ parts, pySubscript resp "participants" = Except.ok (Json.arr parts) ∧
        ∃ e, riotIdsOf parts = Except.error e)) :
    ((getLolId [prog, a, p] api w).1).stdout = [] ∧
      ((getLolId [prog, a, p] api w).1).exitCode ≠ 0 ∧
      ((getLolId [prog, a, p] api w).1).stderr ≠ [] := by
  rw [getLolId_two_args]
  rcases hbad with ⟨e, he⟩ | ⟨parts, hp2, e, he⟩
  · simp only [runWithArgs, hresp, he]
    exact ⟨rfl, Nat.one_ne_zero, List.cons_ne_nil e []⟩
  · simp only [runWithArgs, hresp, hp2, pyIter, he]
    exact ⟨rfl, Nat.one_ne_zero, List.cons_ne_nil e []⟩

/-- C5 witness: a response with no participants entry. -/
theorem claim5_witness :
    ((getLolId ["get_lol_id.py", "RGAPI-demo", "puuid-one"]
        (fun _ _ _ => Except.ok (Json.obj [("gameId", Json.num 1234)]))
        (World.mk [] [])).1).stdout = [] ∧
      ((getLolId ["get_lol_id.py", "RGAPI-demo", "puuid-one"]
        (fun _ _ _ => Except.ok (Json.obj [("gameId", Json.num 1234)]))
        (World.mk [] [])).1).exitCode ≠ 0 ∧
      ((getLolId ["get_lol_id.py", "RGAPI-demo", "puuid-one"]
        (fun _ _ _ => Except.ok (Json.obj [("gameId", Json.num 1234)]))
        (World.mk [] [])).1).stderr ≠ [] :=
  claim5_shape_mismatch_crashes "get_lol_id.py" "RGAPI-demo" "puuid-one"
    (fun _ _ _ => Except.ok (Json.obj [("gameId", Json.num 1234)]))
    (World.mk [] []) (Json.obj [("gameId", Json.num 1234)]) rfl
    (Or.inl ⟨"KeyError: " ++ pyReprStr "participants", rfl⟩)

/-- C6: with two arguments, the one spectator call is issued with the
fixed jp1 region literal and the puuid argument; the api key and the
script name never enter the call. -/
theorem claim6_fixed_region_call (prog a p : String) (api : ApiFn) (w : World) :
    ((getLolId [prog, a, p] api w).1).apiCalls = [("jp1", p)] := by
  rw [getLolId_two_args]
  exact runWithArgs_apiCalls a p api w

/-- C7: no run issues more than one spectator call; the
malformed-invocation path issues none, and the two-argument path issues
exactly one, after which every event is a print, so the call completes
before anything is printed. -/
theorem claim7_single_call_before_output (argv : List String) (api : ApiFn)
    (w : World) :
    ((getLolId argv api w).1).apiCalls.length ≤ 1 ∧
      (argv.length ≠ 3 → ((getLolId argv api w).1).apiCalls = []) ∧
      (∀ prog a p, argv = [prog, a, p] →
        ∃ rest, ((getLolId argv api w).1).trace =
            Event.constructClient a :: Event.apiCall "jp1" p :: rest ∧
          rest.all Event.isPrint = true) := by
  by_cases hl : argv.length = 3
  · obtain ⟨x, y, z, rfl⟩ := List.length_eq_three.mp hl
    refine ⟨?_, ?_, ?_⟩
    · rw [getLolId_two_args, runWithArgs_apiCalls]
      exact Nat.le_refl 1
    · intro hcon
      exact absurd hl hcon
    · intro prog a p heq
      injection heq with h1 t1
      injection t1 with h2 t2
      injection t2 with h3 t3
      subst h1
      subst h2
      subst h3
      rw [getLolId_two_args]
      exact runWithArgs_trace _ _ api w
  · refine ⟨?_, ?_, ?_⟩
    · unfold getLolId
      rw [if_pos hl]
      exact Nat.zero_le 1
    · intro _
      unfold getLolId
      rw [if_pos hl]
      rfl
    · intro prog a p heq
      rw [heq] at hl
      exact absurd rfl hl
  
/-- C7 witness: a malformed invocation issues no call. -/
theorem claim7_witness :
    ((getLolId ["get_lol_id.py"] (fun _ _ _ => Except.error "boom")
        (World.mk [] [])).1).apiCalls = [] :=
  (claim7_single_call_before_output ["get_lol_id.py"]
    (fun _ _ _ => Except.error "boom") (World.mk [] [])).2.1 (by decide)

/-- C8: a run leaves the file system and environment exactly as it found
them and its observable outcome does not depend on them: its only
effects are the events of the trace and the exit code. -/
theorem claim8_world_frame (argv : List String) (api : ApiFn) (w w2 : World) :
    (getLolId argv api w).2 = w ∧
      (getLolId argv api w).1 = (getLolId argv api w2).1 := by
  unfold getLolId
  by_cases hl : argv.length ≠ 3
  · rw [if_pos hl, if_pos hl]
    exact ⟨rfl, rfl⟩
  · rw [if_neg hl, if_neg hl]
    exact ⟨runWithArgs_world _ _ api w,
      runWithArgs_fst _ _ api w w2⟩

/-- C9: on the malformed-invocation path the usage line goes to standard
output, and nothing goes to standard error. -/
theorem claim9_usage_on_stdout (prog : String) (args : List String)
    (api : ApiFn) (w : World) (h : args.length ≠ 2) :
    ((getLolId (prog :: args) api w).1).stdout = [usageMsg] ∧
      ((getLolId (prog :: args) api w).1).stderr = [] := by
  have hlen : ((prog :: args).length ≠ 3) := by
    simp only [List.length_cons]
    omega
  unfold getLolId
  rw [if_pos hlen]
  exact ⟨rfl, rfl⟩

/-- C9 witness: zero arguments. -/
theorem claim9_witness :
    ((getLolId ["get_lol_id.py"] (fun _ _ _ => Except.error "unused")
        (World.mk [] [])).1).stdout = [usageMsg] ∧
      ((getLolId ["get_lol_id.py"] (fun _ _ _ => Except.error "unused")
        (World.mk [] [])).1).stderr = [] :=
  claim9_usage_on_stdout "get_lol_id.py" [] (fun _ _ _ => Except.error "unused")
    (World.mk [] []) (by decide)

/-- C10: two two-argument invocations whose clients return the same
response for the call each one makes print identical stdout, whatever
their script names, api keys, puuids or ambient worlds: no argument
value flows into the printed text. -/
theorem claim10_output_independent_of_args
    (prog1 a1 p1 prog2 a2 p2 : String) (api1 api2 : ApiFn) (w1 w2 : World)
    (hsame : api1 a1 "jp1" p1 = api2 a2 "jp1" p2) :
    ((getLolId [prog1, a1, p1] api1 w1).1).stdout =
      ((getLolId [prog2, a2, p2] api2 w2).1).stdout := by
  rw [getLolId_two_args, getLolId_two_args]
  exact runWithArgs_stdout_eq a1 p1 a2 p2 api1 api2 w1 w2 hsame

/-- C10 witness: different keys and puuids, identical responses,
identical output. -/
theorem claim10_witness :
    ((getLolId ["get_lol_id.py", "key-one", "puuid-one"]
        (fun _ _ _ => Except.ok (Json.obj [("participants", Json.arr [])]))
        (World.mk [] [])).1).stdout =
      ((getLolId ["other.py", "key-two", "puuid-two"]
        (fun _ _ _ => Except.ok (Json.obj [("participants", Json.arr [])]))
        (World.mk [("config", "x")] [("HOME", "h")])).1).stdout :=
  claim10_output_independent_of_args "get_lol_id.py" "key-one" "puuid-one"
    "other.py" "key-two" "puuid-two"
    (fun _ _ _ => Except.ok (Json.obj [("participants", Json.arr [])]))
    (fun _ _ _ => Except.ok (Json.obj [("participants", Json.arr [])]))
    (World.mk [] []) (World.mk [("config", "x")] [("HOME", "h")]) rfl
